import Mathlib

/-!
Verification of the gfx resource-factory extension
(`src/render/src/extra/factory.rs`): the `FactoryExt` trait methods
`create_mesh`, `link_program`, `link_program_source`,
`create_pipeline_state`, `create_texture_rgba8`,
`create_texture_rgba8_static`.

The stateful Rust factory (`&mut self`) is embedded as a record of oracle
functions (`Backend`); each extension method is a pure Lean function of the
backend returning its result together with the ordered list of backend calls
it performed, so that claims about which calls happen (and in which order)
are statable.
-/

/-- Shader byte code (`&[u8]`), modelled as a list of bytes. -/
abbrev Code := List Nat

/-- Opaque device shader object handle (gfx_core, outside the excerpt). -/
abbrev Shader := Nat

/-- Opaque reflected program signature (`ProgramInfo`), used only as an
argument to descriptor population; modelled opaquely. -/
abbrev ProgramInfo := Nat

/-- Modelled from the spec: `handle::Program` (gfx_core, not under src/) is a
backend program handle carrying a reflected signature obtained via
`get_info()`. -/
structure Program where
  id : Nat
  info : ProgramInfo
deriving DecidableEq, Repr

/-- Modelled from the spec: `CreateShaderError` (gfx_core, not under src/) is a
backend-reported shader compilation error that includes a `ModelNotSupported`
variant; all other variants are opaque. -/
inductive CreateShaderError
  | ModelNotSupported
  | Other (code : Nat)
deriving DecidableEq, Repr

/-- `CreateProgramError`: the program link failure, "providing an error
string" (factory.rs line 30). -/
abbrev CreateProgramError := String

/-- Modelled from the spec: `ProgramError` (extra::shade, not under src/) —
`Vertex(CreateShaderError)`, `Pixel(CreateShaderError)`,
`Link(CreateProgramError)`, exactly one per failed call. -/
inductive ProgramError
  | Vertex (e : CreateShaderError)
  | Pixel (e : CreateShaderError)
  | Link (e : CreateProgramError)
deriving DecidableEq, Repr

/-- `ShaderSet` (gfx_core): `Simple` holds exactly one vertex and one pixel
stage; other shader-set shapes are opaque to this excerpt. -/
inductive ShaderSet
  | Simple (vs ps : Shader)
  | OtherSet (code : Nat)
deriving DecidableEq, Repr

/-- Opaque PSO init error (`pso::InitError`). -/
abbrev InitError := Nat

/-- Opaque device pipeline creation error (`pso::CreationError`). -/
abbrev CreationError := Nat

/-- Opaque texture creation error (`tex::TextureError`). -/
abbrev TextureError := Nat

/-- Opaque primitive topology. -/
abbrev Primitive := Nat

/-- Opaque rasterizer state. -/
abbrev Rasterizer := Nat

/-- Opaque meta binding table produced by descriptor population. -/
abbrev Meta := Nat

/-- Opaque raw device pipeline handle. -/
abbrev RawPipeline := Nat

/-- Opaque texture handle. -/
abbrev TextureHandle := Nat

/-- Opaque buffer handle. -/
abbrev BufferHandle := Nat

/-- Opaque sampler handle. -/
abbrev SamplerHandle := Nat

/-- A typed vertex datum (the `T: VertexFormat` element), opaque here. -/
abbrev Vertex := Nat

/-- `BufferRole` (gfx_core::factory): the role a buffer is created for. -/
inductive BufferRole
  | Vertex
  | Index
deriving DecidableEq, Repr

/-- `tex::AaMode`: anti-aliasing mode of a texture kind. -/
inductive AaMode
  | Single
  | Multi (samples : Nat)
deriving DecidableEq, Repr

/-- `tex::Kind`: texture dimensionality. -/
inductive TexKind
  | D1
  | D2 (aa : AaMode)
  | D3
  | CubeKind
deriving DecidableEq, Repr

/-- `tex::Format`: surface format; only the two named in the excerpt plus an
opaque remainder. -/
inductive TexFormat
  | RGBA8
  | DEPTH24_STENCIL8
  | OtherFormat (code : Nat)
deriving DecidableEq, Repr

/-- `tex::TextureInfo`: plain value description of a texture. -/
structure TextureInfo where
  width : Nat
  height : Nat
  depth : Nat
  levels : Nat
  kind : TexKind
  format : TexFormat
deriving DecidableEq, Repr

/-- `tex::SamplerInfo`: filter method and wrap mode. -/
structure SamplerInfo where
  filter : Nat
  wrap : Nat
deriving DecidableEq, Repr

/-- `pso::Descriptor`: an in-progress pipeline configuration seeded with the
primitive topology and rasterizer state; the per-slot binding part is
opaque. -/
structure Descriptor where
  primitive : Primitive
  rasterizer : Rasterizer
  slots : Nat
deriving DecidableEq, Repr

/-- `Descriptor::new(primitive, rasterizer)`: empty descriptor seeded with
the primitive and rasterizer. -/
def Descriptor.new (primitive : Primitive) (rasterizer : Rasterizer) : Descriptor :=
  { primitive := primitive, rasterizer := rasterizer, slots := 0 }

/-- `pso::PipelineState::new(raw, primitive, meta)`. -/
structure PipelineState where
  raw : RawPipeline
  primitive : Primitive
  meta : Meta
deriving DecidableEq, Repr

def PipelineState.new (raw : RawPipeline) (primitive : Primitive) (meta : Meta) :
    PipelineState :=
  { raw := raw, primitive := primitive, meta := meta }

/-- `PipelineStateError<R>` (factory.rs lines 28-36): error creating a
PipelineState. `DescriptorInit` carries the already-linked program. -/
inductive PipelineStateError
  | ProgramLink (e : CreateProgramError)
  | DescriptorInit (e : InitError) (program : Program)
  | DeviceCreate (e : CreationError)
deriving DecidableEq, Repr

/-- Modelled from the spec: a typed pipeline-init description (the
`pso::PipelineInit` contract, not under src/) exposing
`link_to(descriptor, signature) -> meta | InitError`; the Rust `&mut`
descriptor becomes an explicitly returned updated descriptor. -/
structure PipelineInit where
  link_to : Descriptor → ProgramInfo → Except InitError (Meta × Descriptor)

/-- `Capabilities` (gfx_core): only the shading-model tier is consulted by
the excerpt; modelled as a numeric tier. -/
structure Capabilities where
  shader_model : Nat
deriving DecidableEq, Repr

/-- The generic `Factory` contract the extension trait builds on: one oracle
function per device operation the excerpt invokes. -/
structure Backend where
  caps : Capabilities
  create_shader_vertex : Code → Except CreateShaderError Shader
  create_shader_pixel : Code → Except CreateShaderError Shader
  create_program : ShaderSet → Except CreateProgramError Program
  create_pipeline_state_raw : Program → Descriptor → Except CreationError RawPipeline
  create_texture : TextureInfo → Except TextureError TextureHandle
  create_texture_static : TextureInfo → List Nat → Except TextureError TextureHandle
  create_buffer_static : List Vertex → BufferRole → BufferHandle
  create_sampler : SamplerInfo → SamplerHandle

/-- One backend/collaborator call made during an extension method, recorded
in order of occurrence. -/
inductive Call
  | CompileVertex (code : Code)
  | CompilePixel (code : Code)
  | CreateProgram (s : ShaderSet)
  | LinkTo
  | CreatePipelineRaw (p : Program) (d : Descriptor)
  | CreateTexture (info : TextureInfo)
  | CreateTextureStatic (info : TextureInfo) (data : List Nat)
  | GenerateMipmap (h : TextureHandle)
  | CreateBufferStatic (role : BufferRole)
deriving DecidableEq, Repr

/-- Modelled from the spec: `ShaderSource` (extra::shade, not under src/) is
a set of shader-model-tagged code blobs, at most one per tier. -/
structure ShaderSource where
  variants : List (Nat × Code)
deriving DecidableEq, Repr

/-- Modelled from the spec: `ShaderSource::choose(model)` returns the blob
for the highest tier ≤ the requested model, or fails if none qualifies. -/
def ShaderSource.choose (s : ShaderSource) (model : Nat) : Except Unit Code :=
  let qual := s.variants.filter (fun p => p.1 ≤ model)
  match qual.foldl
      (fun acc p => match acc with
        | none => some p
        | some q => if q.1 < p.1 then some p else some q)
      none with
  | some p => Except.ok p.2
  | none => Except.error ()

/-- Modelled from the spec: `Mesh` (mesh.rs, not under src/) wraps a vertex
buffer with a vertex count; `Mesh::from_format(buf, nv)`. -/
structure Mesh where
  buf : BufferHandle
  numVertices : Nat
deriving DecidableEq, Repr

def Mesh.from_format (buf : BufferHandle) (nv : Nat) : Mesh :=
  { buf := buf, numVertices := nv }

/-- Modelled from the spec: `VertexCount` (gfx_core, not under src/) is the
device's fixed-width vertex-count integer type; its bit width `w` is left as
a parameter, and the Rust `as` cast reduces the host length modulo `2 ^ w`. -/
def castVertexCount (w : Nat) (n : Nat) : Nat :=
  n % 2 ^ w

/-- `FactoryExt::create_mesh` (factory.rs lines 42-47): create a mesh from
vertex data; the count is the data length cast to `VertexCount`. -/
def create_mesh (w : Nat) (f : Backend) (data : List Vertex) : Mesh × List Call :=
  let nv := data.length
  let buf := f.create_buffer_static data BufferRole.Vertex
  (Mesh.from_format buf (castVertexCount w nv), [Call.CreateBufferStatic BufferRole.Vertex])

/-- `FactoryExt::link_program` (factory.rs lines 50-66): compile the vertex
shader, then the pixel shader, then link the simple set. -/
def link_program (f : Backend) (vs_code ps_code : Code) :
    Except ProgramError Program × List Call :=
  match f.create_shader_vertex vs_code with
  | Except.error e => (Except.error (ProgramError.Vertex e), [Call.CompileVertex vs_code])
  | Except.ok vs =>
    match f.create_shader_pixel ps_code with
    | Except.error e =>
        (Except.error (ProgramError.Pixel e),
         [Call.CompileVertex vs_code, Call.CompilePixel ps_code])
    | Except.ok ps =>
      let set := ShaderSet.Simple vs ps
      match f.create_program set with
      | Except.error e =>
          (Except.error (ProgramError.Link e),
           [Call.CompileVertex vs_code, Call.CompilePixel ps_code, Call.CreateProgram set])
      | Except.ok p =>
          (Except.ok p,
           [Call.CompileVertex vs_code, Call.CompilePixel ps_code, Call.CreateProgram set])

/-- `FactoryExt::link_program_source` (factory.rs lines 70-79): choose the
variant of each source for the active shader model, then link; the match arms
follow the source order `(Ok,Ok)`, `(Err,Ok)`, `(_,Err)`. -/
def link_program_source (f : Backend) (vs_src ps_src : ShaderSource) :
    Except ProgramError Program × List Call :=
  let model := f.caps.shader_model
  match vs_src.choose model, ps_src.choose model with
  | Except.ok vs_code, Except.ok ps_code => link_program f vs_code ps_code
  | Except.error _, Except.ok _ =>
      (Except.error (ProgramError.Vertex CreateShaderError.ModelNotSupported), [])
  | _, Except.error _ =>
      (Except.error (ProgramError.Pixel CreateShaderError.ModelNotSupported), [])

/-- `FactoryExt::create_pipeline_state` (factory.rs lines 82-101): link the
program, populate the descriptor from the init description, realize it on
the device. -/
def create_pipeline_state (f : Backend) (init : PipelineInit) (shaders : ShaderSet)
    (primitive : Primitive) (rasterizer : Rasterizer) :
    Except PipelineStateError PipelineState × List Call :=
  match f.create_program shaders with
  | Except.error e =>
      (Except.error (PipelineStateError.ProgramLink e), [Call.CreateProgram shaders])
  | Except.ok program =>
    let descriptor := Descriptor.new primitive rasterizer
    match init.link_to descriptor program.info with
    | Except.error e =>
        (Except.error (PipelineStateError.DescriptorInit e program),
         [Call.CreateProgram shaders, Call.LinkTo])
    | Except.ok (meta, descriptor2) =>
      match f.create_pipeline_state_raw program descriptor2 with
      | Except.error e =>
          (Except.error (PipelineStateError.DeviceCreate e),
           [Call.CreateProgram shaders, Call.LinkTo,
            Call.CreatePipelineRaw program descriptor2])
      | Except.ok raw =>
          (Except.ok (PipelineState.new raw primitive meta),
           [Call.CreateProgram shaders, Call.LinkTo,
            Call.CreatePipelineRaw program descriptor2])

/-- `FactoryExt::create_texture_rgba8` (factory.rs lines 104-114): a simple
RGBA8 2D texture. -/
def create_texture_rgba8 (f : Backend) (width height : Nat) :
    Except TextureError TextureHandle × List Call :=
  let info : TextureInfo :=
    { width := width, height := height, depth := 1, levels := 1,
      kind := TexKind.D2 AaMode.Single, format := TexFormat.RGBA8 }
  (f.create_texture info, [Call.CreateTexture info])

/-- `FactoryExt::create_texture_rgba8_static` (factory.rs lines 117-134):
RGBA8 2D texture with contents and mipmap chain; on successful creation a
mipmap generation is triggered on the handle, on failure the error is
propagated. -/
def create_texture_rgba8_static (f : Backend) (width height : Nat) (data : List Nat) :
    Except TextureError TextureHandle × List Call :=
  let info : TextureInfo :=
    { width := width, height := height, depth := 1, levels := 99,
      kind := TexKind.D2 AaMode.Single, format := TexFormat.RGBA8 }
  match f.create_texture_static info data with
  | Except.ok handle =>
      (Except.ok handle, [Call.CreateTextureStatic info data, Call.GenerateMipmap handle])
  | Except.error e =>
      (Except.error e, [Call.CreateTextureStatic info data])

/-- The sublist of mipmap-generation calls in a trace. -/
def mipmapCalls (tr : List Call) : List Call :=
  tr.filter (fun c => match c with
    | Call.GenerateMipmap _ => true
    | _ => false)

/-! Concrete backends and fixtures used by the counterexample and witness
theorems. -/

/-- A backend on which every device operation succeeds; shader model tier 3. -/
def okBackend : Backend where
  caps := { shader_model := 3 }
  create_shader_vertex := fun _ => Except.ok 1
  create_shader_pixel := fun _ => Except.ok 2
  create_program := fun _ => Except.ok { id := 7, info := 0 }
  create_pipeline_state_raw := fun _ _ => Except.ok 5
  create_texture := fun _ => Except.ok 11
  create_texture_static := fun _ _ => Except.ok 12
  create_buffer_static := fun _ _ => 3
  create_sampler := fun _ => 4

/-- Like `okBackend` but with shader model tier 1. -/
def lowModelBackend : Backend :=
  { okBackend with caps := { shader_model := 1 } }

/-- Like `okBackend` but vertex-shader compilation always fails. -/
def failVertexBackend : Backend :=
  { okBackend with create_shader_vertex := fun _ => Except.error (CreateShaderError.Other 4) }

/-- Like `okBackend` but program linking always fails. -/
def failProgBackend : Backend :=
  { okBackend with create_program := fun _ => Except.error "link failed" }

/-- Like `okBackend` but static texture creation always fails. -/
def failTexBackend : Backend :=
  { okBackend with create_texture_static := fun _ _ => Except.error 9 }

/-- A shader source with a single blob at tier 5 only. -/
def srcHigh : ShaderSource := { variants := [(5, [10])] }

/-- A shader source with a single blob at tier 4 only. -/
def srcHigh4 : ShaderSource := { variants := [(4, [40])] }

/-- A shader source with blobs at tiers 2 and 3. -/
def srcBoth : ShaderSource := { variants := [(2, [20]), (3, [30])] }

/-- An init description whose descriptor population always succeeds. -/
def okInit : PipelineInit := { link_to := fun d _ => Except.ok (0, d) }

/-- An init description whose descriptor population always fails. -/
def failInit : PipelineInit := { link_to := fun _ _ => Except.error 3 }

/-! The claims. -/

/-- C1 counterexample: with a tier-1 device and sources offering only tiers 5
and 4, both selections fail, yet `link_program_source` reports the
pixel-stage failure, not the vertex-stage failure claimed. -/
theorem C1_counterexample :
    srcHigh.choose lowModelBackend.caps.shader_model = Except.error () ∧
    srcHigh4.choose lowModelBackend.caps.shader_model = Except.error () ∧
    (link_program_source lowModelBackend srcHigh srcHigh4).1
      = Except.error (ProgramError.Pixel CreateShaderError.ModelNotSupported) ∧
    (link_program_source lowModelBackend srcHigh srcHigh4).1
      ≠ Except.error (ProgramError.Vertex CreateShaderError.ModelNotSupported) := by
  refine ⟨rfl, rfl, rfl, ?_⟩
  have h : (link_program_source lowModelBackend srcHigh srcHigh4).1
      = Except.error (ProgramError.Pixel CreateShaderError.ModelNotSupported) := rfl
  rw [h]
  simp

/-- C1 (amended): when both the vertex and pixel source selections fail,
`link_program_source` reports the pixel-stage failure
`Err(ProgramError::Pixel(ModelNotSupported))`; the vertex-stage failure is
not reported. -/
theorem C1_both_fail_reports_pixel (f : Backend) (vs_src ps_src : ShaderSource)
    (hv : vs_src.choose f.caps.shader_model = Except.error ())
    (hp : ps_src.choose f.caps.shader_model = Except.error ()) :
    (link_program_source f vs_src ps_src).1
      = Except.error (ProgramError.Pixel CreateShaderError.ModelNotSupported) := by
  simp [link_program_source, hv, hp]

/-- C1 witness: the amended claim instantiated on the counterexample input. -/
theorem C1_both_fail_reports_pixel_witness :
    srcHigh.choose lowModelBackend.caps.shader_model = Except.error () ∧
    srcHigh4.choose lowModelBackend.caps.shader_model = Except.error () ∧
    (link_program_source lowModelBackend srcHigh srcHigh4).1
      = Except.error (ProgramError.Pixel CreateShaderError.ModelNotSupported) :=
  ⟨rfl, rfl, C1_both_fail_reports_pixel lowModelBackend srcHigh srcHigh4 rfl rfl⟩

/-- C2: if program creation succeeds with `program` and descriptor population
fails with `e`, `create_pipeline_state` returns
`Err(DescriptorInit(e, program))` with the linked program unchanged. -/
theorem C2_descriptor_init_carries_program (f : Backend) (init : PipelineInit)
    (shaders : ShaderSet) (primitive : Primitive) (rasterizer : Rasterizer)
    (program : Program) (e : InitError)
    (hp : f.create_program shaders = Except.ok program)
    (hl : init.link_to (Descriptor.new primitive rasterizer) program.info
            = Except.error e) :
    (create_pipeline_state f init shaders primitive rasterizer).1
      = Except.error (PipelineStateError.DescriptorInit e program) := by
  simp [create_pipeline_state, hp, hl]

/-- C2 witness: a succeeding linker plus a failing init description yields
`DescriptorInit` carrying exactly the linked program. -/
theorem C2_descriptor_init_carries_program_witness :
    okBackend.create_program (ShaderSet.Simple 1 2) = Except.ok { id := 7, info := 0 } ∧
    failInit.link_to (Descriptor.new 0 0) (Program.mk 7 0).info = Except.error 3 ∧
    (create_pipeline_state okBackend failInit (ShaderSet.Simple 1 2) 0 0).1
      = Except.error (PipelineStateError.DescriptorInit 3 { id := 7, info := 0 }) :=
  ⟨rfl, rfl,
    C2_descriptor_init_carries_program okBackend failInit (ShaderSet.Simple 1 2) 0 0
      { id := 7, info := 0 } 3 rfl rfl⟩

/-- C3: stage ordering of `create_pipeline_state` errors: a `ProgramLink`
error means descriptor population and device realization were never invoked,
and a `DeviceCreate` error means program linking and descriptor population
had already succeeded. -/
theorem C3_stage_ordering (f : Backend) (init : PipelineInit) (shaders : ShaderSet)
    (primitive : Primitive) (rasterizer : Rasterizer) :
    (∀ e, (create_pipeline_state f init shaders primitive rasterizer).1
        = Except.error (PipelineStateError.ProgramLink e) →
      Call.LinkTo ∉ (create_pipeline_state f init shaders primitive rasterizer).2 ∧
      ∀ p d, Call.CreatePipelineRaw p d
        ∉ (create_pipeline_state f init shaders primitive rasterizer).2) ∧
    (∀ e, (create_pipeline_state f init shaders primitive rasterizer).1
        = Except.error (PipelineStateError.DeviceCreate e) →
      ∃ program, f.create_program shaders = Except.ok program ∧
        ∃ md, init.link_to (Descriptor.new primitive rasterizer) program.info
          = Except.ok md) := by
  cases h1 : f.create_program shaders with
  | error e1 =>
    constructor
    · intro e _
      constructor
      · simp [create_pipeline_state, h1]
      · intro p d
        simp [create_pipeline_state, h1]
    · intro e he
      simp [create_pipeline_state, h1] at he
  | ok program =>
    cases h2 : init.link_to (Descriptor.new primitive rasterizer) program.info with
    | error e2 =>
      constructor
      · intro e he
        simp [create_pipeline_state, h1, h2] at he
      · intro e he
        simp [create_pipeline_state, h1, h2] at he
    | ok md =>
      obtain ⟨meta, d2⟩ := md
      cases h3 : f.create_pipeline_state_raw program d2 with
      | error e3 =>
        constructor
        · intro e he
          simp [create_pipeline_state, h1, h2, h3] at he
        · intro e _
          exact ⟨program, rfl, (meta, d2), h2⟩
      | ok raw =>
        constructor
        · intro e he
          simp [create_pipeline_state, h1, h2, h3] at he
        · intro e he
          simp [create_pipeline_state, h1, h2, h3] at he

/-- C3 witness: a failing linker produces `ProgramLink` with no descriptor
population call in the trace. -/
theorem C3_stage_ordering_witness :
    (create_pipeline_state failProgBackend okInit (ShaderSet.Simple 1 2) 0 0).1
      = Except.error (PipelineStateError.ProgramLink "link failed") ∧
    Call.LinkTo ∉ (create_pipeline_state failProgBackend okInit (ShaderSet.Simple 1 2) 0 0).2 :=
  ⟨rfl,
    ((C3_stage_ordering failProgBackend okInit (ShaderSet.Simple 1 2) 0 0).1
      "link failed" rfl).1⟩

/-- C4: if vertex compilation fails with `e`, `link_program` returns
`Err(ProgramError::Vertex(e))` and never attempts pixel compilation; a pixel
compilation occurs only when vertex compilation succeeded. -/
theorem C4_vertex_fail_short_circuits (f : Backend) (vs_code ps_code : Code) :
    (∀ e, f.create_shader_vertex vs_code = Except.error e →
      (link_program f vs_code ps_code).1 = Except.error (ProgramError.Vertex e) ∧
      ∀ c, Call.CompilePixel c ∉ (link_program f vs_code ps_code).2) ∧
    (∀ c, Call.CompilePixel c ∈ (link_program f vs_code ps_code).2 →
      ∃ s, f.create_shader_vertex vs_code = Except.ok s) := by
  cases h1 : f.create_shader_vertex vs_code with
  | error e1 =>
    constructor
    · intro e he
      injection he with he2
      cases he2
      constructor
      · simp [link_program, h1]
      · intro c
        simp [link_program, h1]
    · intro c hc
      simp [link_program, h1] at hc
  | ok vs =>
    constructor
    · intro e he
      simp at he
    · intro c _
      exact ⟨vs, rfl⟩

/-- C4 witness: on a backend whose vertex compilation fails, the vertex error
is returned and no pixel compilation appears in the trace. -/
theorem C4_vertex_fail_short_circuits_witness :
    failVertexBackend.create_shader_vertex [1]
      = Except.error (CreateShaderError.Other 4) ∧
    (link_program failVertexBackend [1] [2]).1
      = Except.error (ProgramError.Vertex (CreateShaderError.Other 4)) ∧
    Call.CompilePixel [2] ∉ (link_program failVertexBackend [1] [2]).2 :=
  ⟨rfl,
    ((C4_vertex_fail_short_circuits failVertexBackend [1] [2]).1
      (CreateShaderError.Other 4) rfl).1,
    ((C4_vertex_fail_short_circuits failVertexBackend [1] [2]).1
      (CreateShaderError.Other 4) rfl).2 [2]⟩

/-- C5: if the underlying static texture creation succeeds with `handle`,
`create_texture_rgba8_static` performs exactly one mipmap generation, on that
handle, and returns `Ok(handle)`; if it fails with `e`, no mipmap generation
occurs and `Err(e)` is propagated unchanged. -/
theorem C5_mipmap_exactly_on_success (f : Backend) (width height : Nat) (data : List Nat) :
    (∀ handle,
      f.create_texture_static
          { width := width, height := height, depth := 1, levels := 99,
            kind := TexKind.D2 AaMode.Single, format := TexFormat.RGBA8 } data
        = Except.ok handle →
      (create_texture_rgba8_static f width height data).1 = Except.ok handle ∧
      mipmapCalls (create_texture_rgba8_static f width height data).2
        = [Call.GenerateMipmap handle]) ∧
    (∀ e,
      f.create_texture_static
          { width := width, height := height, depth := 1, levels := 99,
            kind := TexKind.D2 AaMode.Single, format := TexFormat.RGBA8 } data
        = Except.error e →
      (create_texture_rgba8_static f width height data).1 = Except.error e ∧
      mipmapCalls (create_texture_rgba8_static f width height data).2 = []) := by
  cases h : f.create_texture_static
      { width := width, height := height, depth := 1, levels := 99,
        kind := TexKind.D2 AaMode.Single, format := TexFormat.RGBA8 } data with
  | ok handle =>
    constructor
    · intro handle2 hh
      injection hh with hh2
      cases hh2
      constructor
      · simp [create_texture_rgba8_static, h]
      · simp [create_texture_rgba8_static, h, mipmapCalls]
    · intro e he
      simp at he
  | error e1 =>
    constructor
    · intro handle hh
      simp at hh
    · intro e he
      injection he with he2
      cases he2
      constructor
      · simp [create_texture_rgba8_static, h]
      · simp [create_texture_rgba8_static, h, mipmapCalls]

/-- C5 witness: both branches instantiated, on a succeeding backend and on a
failing one. -/
theorem C5_mipmap_exactly_on_success_witness :
    okBackend.create_texture_static
        { width := 2, height := 2, depth := 1, levels := 99,
          kind := TexKind.D2 AaMode.Single, format := TexFormat.RGBA8 } [0, 0, 0, 0]
      = Except.ok 12 ∧
    (create_texture_rgba8_static okBackend 2 2 [0, 0, 0, 0]).1 = Except.ok 12 ∧
    mipmapCalls (create_texture_rgba8_static okBackend 2 2 [0, 0, 0, 0]).2
      = [Call.GenerateMipmap 12] ∧
    (create_texture_rgba8_static failTexBackend 2 2 [0, 0, 0, 0]).1 = Except.error 9 ∧
    mipmapCalls (create_texture_rgba8_static failTexBackend 2 2 [0, 0, 0, 0]).2 = [] :=
  ⟨rfl,
    ((C5_mipmap_exactly_on_success okBackend 2 2 [0, 0, 0, 0]).1 12 rfl).1,
    ((C5_mipmap_exactly_on_success okBackend 2 2 [0, 0, 0, 0]).1 12 rfl).2,
    ((C5_mipmap_exactly_on_success failTexBackend 2 2 [0, 0, 0, 0]).2 9 rfl).1,
    ((C5_mipmap_exactly_on_success failTexBackend 2 2 [0, 0, 0, 0]).2 9 rfl).2⟩

/-- C6: `create_texture_rgba8(w, h)` passes exactly
`{width: w, height: h, depth: 1, levels: 1, kind: D2(Single), format: RGBA8}`
to the device's `create_texture`, unchanged. -/
theorem C6_rgba8_info_exact (f : Backend) (width height : Nat) :
    (create_texture_rgba8 f width height).1
      = f.create_texture
          { width := width, height := height, depth := 1, levels := 1,
            kind := TexKind.D2 AaMode.Single, format := TexFormat.RGBA8 } ∧
    (create_texture_rgba8 f width height).2
      = [Call.CreateTexture
          { width := width, height := height, depth := 1, levels := 1,
            kind := TexKind.D2 AaMode.Single, format := TexFormat.RGBA8 }] :=
  ⟨rfl, rfl⟩

/-- C7: the vertex count of the mesh returned by `create_mesh` is the data
length cast to the `VertexCount` width, i.e. reduced modulo `2 ^ w`, with no
bound check. -/
theorem C7_vertex_count_cast (w : Nat) (f : Backend) (data : List Vertex) :
    (create_mesh w f data).1.numVertices = data.length % 2 ^ w :=
  rfl

/-- C8: whenever both source selections succeed with `vs_code` and `ps_code`,
`link_program_source` returns exactly the result of
`link_program(vs_code, ps_code)`. -/
theorem C8_source_refines_plain (f : Backend) (vs_src ps_src : ShaderSource)
    (vs_code ps_code : Code)
    (hv : vs_src.choose f.caps.shader_model = Except.ok vs_code)
    (hp : ps_src.choose f.caps.shader_model = Except.ok ps_code) :
    link_program_source f vs_src ps_src = link_program f vs_code ps_code := by
  simp [link_program_source, hv, hp]

/-- C8 witness: a tier-3 device picks the tier-3 blob from both sources and
the two entry points agree. -/
theorem C8_source_refines_plain_witness :
    srcBoth.choose okBackend.caps.shader_model = Except.ok [30] ∧
    link_program_source okBackend srcBoth srcBoth = link_program okBackend [30] [30] :=
  ⟨rfl, C8_source_refines_plain okBackend srcBoth srcBoth [30] [30] rfl rfl⟩

/-- C9: the `TextureInfo` that `create_texture_rgba8_static` passes to
`create_texture_static` is exactly
`{width, height, depth: 1, levels: 99, kind: D2(Single), format: RGBA8}` —
the mip-chain sentinel is the concrete level count 99, and every other field
matches the info the empty RGBA8 variant passes. -/
theorem C9_static_levels_sentinel_99 (f : Backend) (width height : Nat) (data : List Nat) :
    (create_texture_rgba8_static f width height data).2.head?
      = some (Call.CreateTextureStatic
          { width := width, height := height, depth := 1, levels := 99,
            kind := TexKind.D2 AaMode.Single, format := TexFormat.RGBA8 } data) ∧
    (create_texture_rgba8 f width height).2
      = [Call.CreateTexture
          { width := width, height := height, depth := 1, levels := 1,
            kind := TexKind.D2 AaMode.Single, format := TexFormat.RGBA8 }] := by
  refine ⟨?_, rfl⟩
  cases h : f.create_texture_static
      { width := width, height := height, depth := 1, levels := 99,
        kind := TexKind.D2 AaMode.Single, format := TexFormat.RGBA8 } data with
  | ok handle => simp [create_texture_rgba8_static, h]
  | error e => simp [create_texture_rgba8_static, h]

/-- C10: `create_mesh` is total — it returns a `Mesh` with no error path, and
the mesh wraps exactly the static vertex buffer created from the given data
together with the cast length. -/
theorem C10_create_mesh_total (w : Nat) (f : Backend) (data : List Vertex) :
    (create_mesh w f data).1
      = Mesh.from_format (f.create_buffer_static data BufferRole.Vertex)
          (castVertexCount w data.length) :=
  rfl
